import Mathlib

/-!
Shallow embedding of `src/ensembler/tools/quick_model.py` (class `QuickModel`).

The Python constructor validates its parameters, resolves a target identifier
and a set of template identifiers, and then fires a fixed sequence of calls
into external ensembler library functions.  We embed the control flow of the
constructor and its two helper methods (`_select_templates_based_on_seqid_cutoff`
and `_model`) as pure Lean functions.  External collaborators (project layout,
UniProt gathering, the sequence-identities report file, interactive console
input) are modelled by an `Env` record supplying their observable results, and
every external invocation is recorded in a trace of `Call` values.

Python truthiness is modelled explicitly: `not s` on an optional string is
true for `None` and for the empty string; `not l` on an optional list is true
for `None` and for the empty list; `not n` on an optional int is true for
`None` and for `0`.  Sequence identities (Python floats) are modelled as `Rat`,
and the simulation length (a `simtk.unit` quantity of picoseconds) as a `Rat`
number of picoseconds.
-/

namespace QuickModel

/-- Python truthiness of an optional string: `None` and `''` are falsy. -/
def truthyS : Option String → Bool
  | none => false
  | some s => !(s == "")

/-- Python truthiness of an optional list: `None` and `[]` are falsy. -/
def truthyL {α : Type} : Option (List α) → Bool
  | none => false
  | some l => !l.isEmpty

/-- Python truthiness of an optional int: `None` and `0` are falsy. -/
def truthyI : Option Int → Bool
  | none => false
  | some n => !(n == 0)

/-- The constructor parameters of `QuickModel.__init__` (quick_model.py lines
14-18), with Python `None` defaults as `Option`.  `chainids` is the
`{pdbid: [chainid]}` dict, modelled as an association list. -/
structure Config where
  targetid : Option String := none
  templateids : Option (List String) := none
  target_uniprot_entry_name : Option String := none
  uniprot_domain_regex : Option String := none
  pdbids : Option (List String) := none
  chainids : Option (List (String × List String)) := none
  template_uniprot_query : Option String := none
  model_seqid_cutoff : Option Rat := none
  loopmodel : Bool := true
  package_for_fah : Bool := false
  nfahclones : Option Int := none
  structure_dirs : Option (List String) := none
  sim_length : Rat := 100
  deriving DecidableEq

/-- Observable results of the external collaborators consumed by the
constructor: whether the working directory is an initialized project (line 50),
the ids of the targets returned by `GatherTargetsFromUniProt` (line 63),
whether `templates-resolved-seq.fa` exists and the ids it yields via
`get_templates_resolved_seq` (lines 69-72), the template ids yielded by
`get_templates_resolved_seq` after `gather_templates_from_pdb` (lines 78-80),
the parsed content of `models/<target>/sequence-identities.txt` (lines
106-110), and the interactive console responses, each a (threshold,
confirmation) pair (lines 124-127). -/
structure Env where
  projectInitialized : Bool
  discoveredTargets : List String
  templatesFileExists : Bool
  templatesResolvedSeq : List String
  templatesAfterPdbGather : List String
  seqidReport : List (String × Rat)
  promptResponses : List (Rat × String)
  deriving DecidableEq

/-- One invocation of an external ensembler/packaging function, with the
arguments the Python code passes.  `alignTargetsAndTemplates` carries
`none` for the template restriction when called from `_align_all_templates`
(line 98, targets only) and `some templateids` when called from `_model`
(line 139). -/
inductive Call where
  | initProject
  | gatherTargetsFromUniprot (query : String) (regex : String)
  | gatherTemplatesFromPdb (pdbids : List String) (regex : Option String)
      (chainids : Option (List (String × List String)))
      (structure_dirs : Option (List String))
  | gatherTemplatesFromUniprot (query : String) (regex : Option String)
      (structure_dirs : Option (List String))
  | alignTargetsAndTemplates (targetid : String) (templateids : Option (List String))
  | modelTemplateLoops (templateids : List String)
  | buildModels (targetid : String) (templateids : List String)
  | clusterModels (targetid : String)
  | refineImplicitMd (targetid : String) (templateids : List String) (sim_length : Rat)
  | solvateModels (targetid : String) (templateids : List String)
  | determineNwaters (targetid : String) (templateids : List String)
  | refineExplicitMd (targetid : String) (templateids : List String) (sim_length : Rat)
  | packageForFah (targetid : String) (nclones : Int)
  deriving DecidableEq

/-- The three `raise Exception(...)` sites of the constructor, plus the
`IndexError` that `gather_targets_obj.targets[0]` raises on an empty
discovery result (line 66). -/
inductive RErr where
  | mustSpecifyTarget
  | missingRegex
  | noExistingTemplates
  | indexError
  deriving DecidableEq

/-- Result of one constructor run: a raised exception, the non-fatal
empty-template warning followed by `return` (lines 91-93), the interactive
cutoff loop never being confirmed (the process blocks forever), or normal
completion.  Every variant carries the trace of external calls made. -/
inductive Outcome where
  | error (e : RErr) (calls : List Call)
  | warned (calls : List Call)
  | blocked (calls : List Call)
  | completed (targetid : String) (templateids : List String) (calls : List Call)
  deriving DecidableEq

/-- The call trace of an outcome. -/
def Outcome.calls : Outcome → List Call
  | .error _ cs => cs
  | .warned cs => cs
  | .blocked cs => cs
  | .completed _ _ cs => cs

/-- Lines 50-51: initialize the project if the working directory is not
already a project top-level directory. -/
def initCalls (env : Env) : List Call :=
  if env.projectInitialized then [] else [Call.initProject]

/-- The validation condition of line 53: true exactly when the constructor
raises `'Must specify either targetid or target_uniprot_entry_name.'`. -/
def targetGuard (cfg : Config) : Bool :=
  (!truthyS cfg.targetid && !truthyS cfg.target_uniprot_entry_name) ||
    (truthyS cfg.targetid && truthyS cfg.target_uniprot_entry_name)

/-- Line 69-72: `existing_templates` is true when
`templates-resolved-seq.fa` exists and `get_templates_resolved_seq()` is
non-empty. -/
def existingTemplates (env : Env) : Bool :=
  env.templatesFileExists && !env.templatesResolvedSeq.isEmpty

/-- Result of the target-resolution phase (lines 56-66). -/
inductive TargetRes where
  | err (e : RErr) (calls : List Call)
  | ok (targetid : String) (calls : List Call)
  deriving DecidableEq

/-- Lines 56-66: if `targetid` is falsy, require `target_uniprot_entry_name`
and `uniprot_domain_regex`, gather targets from UniProt with query
`'mnemonic:<entry name>'`, and take the first discovered target's id
(`targets[0].id` raises `IndexError` when the list is empty). -/
def resolveTarget (cfg : Config) (env : Env) : TargetRes :=
  if truthyS cfg.targetid then
    .ok (cfg.targetid.getD "") []
  else if !truthyS cfg.target_uniprot_entry_name || !truthyS cfg.uniprot_domain_regex then
    .err .missingRegex []
  else
    let gcall := Call.gatherTargetsFromUniprot
      ("mnemonic:" ++ cfg.target_uniprot_entry_name.getD "")
      (cfg.uniprot_domain_regex.getD "")
    match env.discoveredTargets with
    | [] => .err .indexError [gcall]
    | t :: _ => .ok t [gcall]

/-- Line 131-132: filter the report rows to those whose sequence identity
strictly exceeds the cutoff and return their template ids in row order
(`df[df.seqids > seqid_cutoff]`, then `list(selected_templates.templateids)`). -/
def selectTemplates (report : List (String × Rat)) (cutoff : Rat) : List String :=
  (report.filter (fun p => p.2 > cutoff)).map Prod.fst

/-- Python `str.lower()` (ASCII case folding), modelled as a character-wise
map so that it evaluates by kernel reduction. -/
def pyLower (s : String) : String :=
  String.mk (s.data.map Char.toLower)

/-- Line 128: `confirm_seqid_cutoff.lower() in ['y', 'yes']`. -/
def isYes (s : String) : Bool :=
  pyLower s == "y" || pyLower s == "yes"

/-- Lines 122-129: the interactive loop.  Consumes (threshold, confirmation)
responses until one is confirmed; returns the confirmed threshold and the
number of prompt rounds consumed, or `none` when the responses run out
unconfirmed (the real loop would block forever). -/
def promptLoop : List (Rat × String) → Option (Rat × Nat)
  | [] => none
  | (c, ans) :: rest =>
    if isYes ans then some (c, 1)
    else
      match promptLoop rest with
      | some (c2, n) => some (c2, n + 1)
      | none => none

/-- Lines 118-120: the histogram printed when no cutoff was supplied, one
`(cutoff, count)` line for each cutoff in `range(0, 101, 10)`, counting rows
with identity strictly above the cutoff. -/
def histogramLines (report : List (String × Rat)) : List (Nat × Nat) :=
  (List.range 11).map
    (fun k => (10 * k, (report.filter (fun p => p.2 > ((10 * k : Nat) : Rat))).length))

/-- Observable behaviour of `_select_templates_based_on_seqid_cutoff`:
the histogram lines printed (empty when a numeric cutoff was supplied), the
number of interactive prompt rounds, and the selected template ids (`none`
when the loop never confirms and the process blocks). -/
structure SelectResult where
  histogram : List (Nat × Nat)
  promptRounds : Nat
  result : Option (List String)
  deriving DecidableEq

/-- Lines 100-134: `_select_templates_based_on_seqid_cutoff`.  With a numeric
cutoff the filter is applied directly; with `None` the histogram is printed
and the cutoff is chosen interactively before filtering. -/
def selectOp (report : List (String × Rat)) (cutoff? : Option Rat)
    (responses : List (Rat × String)) : SelectResult :=
  match cutoff? with
  | some c => ⟨[], 0, some (selectTemplates report c)⟩
  | none =>
    match promptLoop responses with
    | some (c, n) => ⟨histogramLines report, n, some (selectTemplates report c)⟩
    | none => ⟨histogramLines report, responses.length, none⟩

/-- Result of the template-resolution phase (lines 68-89). -/
inductive TemplRes where
  | err (e : RErr) (calls : List Call)
  | blocked (calls : List Call)
  | ok (templateids : List String) (calls : List Call)
  deriving DecidableEq

/-- Lines 74-89: the four-way template-resolution branch.  Branch selection
uses Python truthiness of `templateids`, `pdbids` and
`template_uniprot_query` in that order. -/
def resolveTemplates (cfg : Config) (env : Env) (targetid : String) : TemplRes :=
  if truthyL cfg.templateids then
    if !existingTemplates env then .err .noExistingTemplates []
    else .ok (cfg.templateids.getD []) []
  else if truthyL cfg.pdbids then
    .ok env.templatesAfterPdbGather
      [Call.gatherTemplatesFromPdb (cfg.pdbids.getD []) cfg.uniprot_domain_regex
        cfg.chainids cfg.structure_dirs]
  else if truthyS cfg.template_uniprot_query then
    let gcall := Call.gatherTemplatesFromUniprot (cfg.template_uniprot_query.getD "")
      cfg.uniprot_domain_regex cfg.structure_dirs
    let acall := Call.alignTargetsAndTemplates targetid none
    match (selectOp env.seqidReport cfg.model_seqid_cutoff env.promptResponses).result with
    | some tids => .ok tids [gcall, acall]
    | none => .blocked [gcall, acall]
  else
    if !existingTemplates env then .err .noExistingTemplates []
    else
      let acall := Call.alignTargetsAndTemplates targetid none
      match (selectOp env.seqidReport cfg.model_seqid_cutoff env.promptResponses).result with
      | some tids => .ok tids [acall]
      | none => .blocked [acall]

/-- Lines 147-148: `if not nfahclones: nfahclones = 1` (Python truthiness, so
`None` and `0` both become `1`). -/
def pyNClones (nfahclones : Option Int) : Int :=
  match nfahclones with
  | none => 1
  | some n => if n == 0 then 1 else n

/-- Lines 136-149: `_model`.  The fixed sequence of external calls: optional
loop modeling, alignment, model building, clustering, implicit refinement,
solvation, water-count determination, explicit refinement, and optional
packaging with `pyNClones` clones. -/
def modelCalls (targetid : String) (templateids : List String) (loopmodel : Bool)
    (package_for_fah : Bool) (nfahclones : Option Int) (sim_length : Rat) : List Call :=
  (if loopmodel then [Call.modelTemplateLoops templateids] else []) ++
  [Call.alignTargetsAndTemplates targetid (some templateids),
   Call.buildModels targetid templateids,
   Call.clusterModels targetid,
   Call.refineImplicitMd targetid templateids sim_length,
   Call.solvateModels targetid templateids,
   Call.determineNwaters targetid templateids,
   Call.refineExplicitMd targetid templateids sim_length] ++
  (if package_for_fah then [Call.packageForFah targetid (pyNClones nfahclones)] else [])

/-- Lines 14-95: the whole constructor.  Project initialization, target
validation (line 53), target resolution (lines 56-66), template resolution
(lines 68-89), the empty-template warning short-circuit (lines 91-93), and
the `_model` sequence (line 95). -/
def quickModelInit (cfg : Config) (env : Env) : Outcome :=
  let calls0 := initCalls env
  if targetGuard cfg then
    .error .mustSpecifyTarget calls0
  else
    match resolveTarget cfg env with
    | .err e c1 => .error e (calls0 ++ c1)
    | .ok tid c1 =>
      match resolveTemplates cfg env tid with
      | .err e c2 => .error e (calls0 ++ c1 ++ c2)
      | .blocked c2 => .blocked (calls0 ++ c1 ++ c2)
      | .ok tids c2 =>
        if tids.isEmpty then .warned (calls0 ++ c1 ++ c2)
        else
          .completed tid tids (calls0 ++ c1 ++ c2 ++
            modelCalls tid tids cfg.loopmodel cfg.package_for_fah
              cfg.nfahclones cfg.sim_length)

/-- The calls made by `_model` (line 95 onward), as opposed to the
resolution-phase calls that precede the empty-template check: loop modeling,
alignment restricted to a template set, building, clustering, both
refinements, solvation, water counting, and packaging. -/
def isModelingCall : Call → Bool
  | .modelTemplateLoops _ => true
  | .alignTargetsAndTemplates _ (some _) => true
  | .buildModels _ _ => true
  | .clusterModels _ => true
  | .refineImplicitMd _ _ _ => true
  | .solvateModels _ _ => true
  | .determineNwaters _ _ => true
  | .refineExplicitMd _ _ _ => true
  | .packageForFah _ _ => true
  | _ => false

/-! ### Helper lemmas -/

theorem truthyS_eq_isSome (o : Option String) (h : o ≠ some "") :
    truthyS o = o.isSome := by
  cases o with
  | none => rfl
  | some s =>
    simp only [truthyS, Option.isSome_some, Bool.not_eq_true']
    simp only [beq_eq_false_iff_ne, ne_eq]
    intro hs
    exact h (by rw [hs])

theorem targetGuard_eq_true (cfg : Config) :
    targetGuard cfg = true ↔
      truthyS cfg.targetid = truthyS cfg.target_uniprot_entry_name := by
  unfold targetGuard
  cases truthyS cfg.targetid <;> cases truthyS cfg.target_uniprot_entry_name <;> simp

theorem resolveTarget_err_ne_mustSpecify (cfg : Config) (env : Env) (e : RErr)
    (cs : List Call) (h : resolveTarget cfg env = .err e cs) :
    e ≠ .mustSpecifyTarget := by
  unfold resolveTarget at h
  split at h
  · simp at h
  · split at h
    · injection h with h1 h2
      subst h1
      decide
    · split at h
      · injection h with h1 h2
        subst h1
        decide
      · simp at h

theorem resolveTemplates_err_eq (cfg : Config) (env : Env) (tid : String) (e : RErr)
    (cs : List Call) (h : resolveTemplates cfg env tid = .err e cs) :
    e = .noExistingTemplates := by
  unfold resolveTemplates at h
  split at h
  · split at h
    · injection h with h1 h2
      exact h1.symm
    · simp at h
  · split at h
    · simp at h
    · split at h
      · split at h <;> simp at h
      · split at h
        · injection h with h1 h2
          exact h1.symm
        · split at h <;> simp at h

theorem initCalls_not_modeling (env : Env) :
    ∀ c ∈ initCalls env, isModelingCall c = false := by
  unfold initCalls
  split <;> simp_all [isModelingCall]

theorem resolveTarget_ok_not_modeling (cfg : Config) (env : Env) (tid : String)
    (cs : List Call) (h : resolveTarget cfg env = .ok tid cs) :
    ∀ c ∈ cs, isModelingCall c = false := by
  unfold resolveTarget at h
  split at h
  · injection h with h1 h2
    subst h2
    simp
  · split at h
    · simp at h
    · split at h
      · simp at h
      · injection h with h1 h2
        subst h2
        simp_all [isModelingCall]

theorem resolveTemplates_ok_not_modeling (cfg : Config) (env : Env) (tid : String)
    (tids : List String) (cs : List Call)
    (h : resolveTemplates cfg env tid = .ok tids cs) :
    ∀ c ∈ cs, isModelingCall c = false := by
  unfold resolveTemplates at h
  split at h
  · split at h
    · simp at h
    · injection h with h1 h2
      subst h2
      simp
  · split at h
    · injection h with h1 h2
      subst h2
      simp_all [isModelingCall]
    · split at h
      · split at h
        · injection h with h1 h2
          subst h2
          simp_all [isModelingCall]
        · simp at h
      · split at h
        · simp at h
        · split at h
          · injection h with h1 h2
            subst h2
            simp_all [isModelingCall]
          · simp at h

/-- The selection rule as the spec words it: the identifiers of exactly the
rows whose identity percentage strictly exceeds the threshold (a row equal to
the threshold excluded), in row order. -/
def selectTemplatesSpec (report : List (String × Rat)) (cutoff : Rat) : List String :=
  match report with
  | [] => []
  | (t, s) :: rest =>
    if cutoff < s then t :: selectTemplatesSpec rest cutoff
    else selectTemplatesSpec rest cutoff

theorem selectTemplates_eq_spec (report : List (String × Rat)) (c : Rat) :
    selectTemplates report c = selectTemplatesSpec report c := by
  induction report with
  | nil => rfl
  | cons p rest ih =>
    obtain ⟨t, s⟩ := p
    by_cases h : c < s
    · simp only [selectTemplates, selectTemplatesSpec, List.filter_cons, gt_iff_lt,
        decide_eq_true_eq, h, if_true, List.map_cons]
      rw [← ih]
      rfl
    · simp only [selectTemplates, selectTemplatesSpec, List.filter_cons, gt_iff_lt,
        decide_eq_true_eq, h, if_false]
      rw [← ih]
      rfl

theorem bool_ne_true (b : Bool) (h : ¬ b = true) : b = false := by
  cases b
  · rfl
  · exact absurd rfl h

theorem quickModelInit_ok_eq (cfg : Config) (env : Env) (tid : String)
    (c1 : List Call) (tids : List String) (c2 : List Call)
    (hg : targetGuard cfg = false) (h1 : resolveTarget cfg env = .ok tid c1)
    (h2 : resolveTemplates cfg env tid = .ok tids c2) :
    quickModelInit cfg env =
      if tids.isEmpty then .warned (initCalls env ++ c1 ++ c2)
      else .completed tid tids (initCalls env ++ c1 ++ c2 ++
        modelCalls tid tids cfg.loopmodel cfg.package_for_fah
          cfg.nfahclones cfg.sim_length) := by
  unfold quickModelInit
  simp only [hg, Bool.false_eq_true, if_false, h1, h2]

theorem quickModelInit_guard_eq (cfg : Config) (env : Env)
    (hg : targetGuard cfg = true) :
    quickModelInit cfg env = .error .mustSpecifyTarget (initCalls env) := by
  unfold quickModelInit
  simp only [hg, if_true]

theorem quickModelInit_rt_err_eq (cfg : Config) (env : Env) (e : RErr)
    (c1 : List Call) (hg : targetGuard cfg = false)
    (h1 : resolveTarget cfg env = .err e c1) :
    quickModelInit cfg env = .error e (initCalls env ++ c1) := by
  unfold quickModelInit
  simp only [hg, Bool.false_eq_true, if_false, h1]

theorem quickModelInit_templ_err_eq (cfg : Config) (env : Env) (tid : String)
    (c1 : List Call) (e : RErr) (c2 : List Call)
    (hg : targetGuard cfg = false) (h1 : resolveTarget cfg env = .ok tid c1)
    (h2 : resolveTemplates cfg env tid = .err e c2) :
    quickModelInit cfg env = .error e (initCalls env ++ c1 ++ c2) := by
  unfold quickModelInit
  simp only [hg, Bool.false_eq_true, if_false, h1, h2]

theorem quickModelInit_templ_blocked_eq (cfg : Config) (env : Env) (tid : String)
    (c1 : List Call) (c2 : List Call)
    (hg : targetGuard cfg = false) (h1 : resolveTarget cfg env = .ok tid c1)
    (h2 : resolveTemplates cfg env tid = .blocked c2) :
    quickModelInit cfg env = .blocked (initCalls env ++ c1 ++ c2) := by
  unfold quickModelInit
  simp only [hg, Bool.false_eq_true, if_false, h1, h2]

theorem quickModelInit_error_inv (cfg : Config) (env : Env) (e : RErr) (cs : List Call)
    (h : quickModelInit cfg env = .error e cs) :
    (targetGuard cfg = true ∧ e = .mustSpecifyTarget ∧ cs = initCalls env) ∨
    (∃ c1, targetGuard cfg = false ∧ resolveTarget cfg env = .err e c1 ∧
      cs = initCalls env ++ c1) ∨
    (∃ tid c1 c2, targetGuard cfg = false ∧ resolveTarget cfg env = .ok tid c1 ∧
      resolveTemplates cfg env tid = .err e c2 ∧ cs = initCalls env ++ c1 ++ c2) := by
  unfold quickModelInit at h
  split at h
  · injection h with h1 h2
    exact Or.inl ⟨by assumption, h1.symm, h2.symm⟩
  · rename_i hg
    split at h
    · rename_i e1 c1 heq1
      injection h with h1 h2
      subst h1
      exact Or.inr (Or.inl ⟨c1, bool_ne_true _ hg, heq1, h2.symm⟩)
    · rename_i tid c1 heq1
      split at h
      · rename_i e2 c2 heq2
        injection h with h1 h2
        subst h1
        exact Or.inr (Or.inr ⟨tid, c1, c2, bool_ne_true _ hg, heq1, heq2, h2.symm⟩)
      · simp at h
      · split at h <;> simp at h

theorem quickModelInit_warned_inv (cfg : Config) (env : Env) (cs : List Call)
    (h : quickModelInit cfg env = .warned cs) :
    ∃ tid c1 c2, targetGuard cfg = false ∧ resolveTarget cfg env = .ok tid c1 ∧
      resolveTemplates cfg env tid = .ok [] c2 ∧ cs = initCalls env ++ c1 ++ c2 := by
  unfold quickModelInit at h
  split at h
  · simp at h
  · rename_i hg
    split at h
    · simp at h
    · rename_i tid c1 heq1
      split at h
      · simp at h
      · simp at h
      · rename_i tids c2 heq2
        split at h
        · rename_i hemp
          injection h with h2
          refine ⟨tid, c1, c2, bool_ne_true _ hg, heq1, ?_, h2.symm⟩
          rw [List.isEmpty_iff] at hemp
          rw [← hemp]
          exact heq2
        · simp at h

theorem quickModelInit_completed_inv (cfg : Config) (env : Env) (tid : String)
    (tids : List String) (cs : List Call)
    (h : quickModelInit cfg env = .completed tid tids cs) :
    ∃ c1 c2, targetGuard cfg = false ∧ resolveTarget cfg env = .ok tid c1 ∧
      resolveTemplates cfg env tid = .ok tids c2 ∧ tids ≠ [] ∧
      cs = initCalls env ++ c1 ++ c2 ++
        modelCalls tid tids cfg.loopmodel cfg.package_for_fah
          cfg.nfahclones cfg.sim_length := by
  unfold quickModelInit at h
  split at h
  · simp at h
  · rename_i hg
    split at h
    · simp at h
    · rename_i tid1 c1 heq1
      split at h
      · simp at h
      · simp at h
      · rename_i tids1 c2 heq2
        split at h
        · simp at h
        · rename_i hemp
          injection h with h1 h2 h3
          subst h1
          subst h2
          refine ⟨c1, c2, bool_ne_true _ hg, heq1, heq2, ?_, h3.symm⟩
          intro hnil
          exact hemp (by rw [hnil]; rfl)

theorem quickModelInit_blocked_inv (cfg : Config) (env : Env) (cs : List Call)
    (h : quickModelInit cfg env = .blocked cs) :
    ∃ tid c1 c2, targetGuard cfg = false ∧ resolveTarget cfg env = .ok tid c1 ∧
      resolveTemplates cfg env tid = .blocked c2 ∧ cs = initCalls env ++ c1 ++ c2 := by
  unfold quickModelInit at h
  split at h
  · simp at h
  · rename_i hg
    split at h
    · simp at h
    · rename_i tid c1 heq1
      split at h
      · simp at h
      · rename_i c2 heq2
        injection h with h2
        exact ⟨tid, c1, c2, bool_ne_true _ hg, heq1, heq2, h2.symm⟩
      · split at h <;> simp at h

/-! ### Concrete inputs used by witnesses -/

def envTriv : Env :=
  ⟨true, [], false, [], [], [], []⟩

def cfgBoth : Config :=
  { targetid := some "TGT", target_uniprot_entry_name := some "ENT" }

/-! ### Claims -/

/-- C1: constructing the Orchestrator fails with the
`'Must specify either targetid or target_uniprot_entry_name.'` configuration
error exactly when the target identifier and the target-discovery entry name
are both absent or both present (supplied strings assumed non-empty, matching
the spec's notion of a supplied value); construction proceeds past this check
exactly when one and only one of them is supplied. -/
theorem C1_target_validation (cfg : Config) (env : Env)
    (ht : cfg.targetid ≠ some "") (he : cfg.target_uniprot_entry_name ≠ some "") :
    (cfg.targetid.isSome = cfg.target_uniprot_entry_name.isSome →
        quickModelInit cfg env = .error .mustSpecifyTarget (initCalls env))
    ∧ (cfg.targetid.isSome ≠ cfg.target_uniprot_entry_name.isSome →
        ∀ cs, quickModelInit cfg env ≠ .error .mustSpecifyTarget cs) := by
  have hts := truthyS_eq_isSome _ ht
  have hes := truthyS_eq_isSome _ he
  constructor
  · intro hsome
    have hg : targetGuard cfg = true :=
      (targetGuard_eq_true cfg).mpr (by rw [hts, hes, hsome])
    unfold quickModelInit
    simp [hg]
  · intro hne cs
    have hg : targetGuard cfg = false := by
      cases hgt : targetGuard cfg
      · rfl
      · exact absurd (by rw [← hts, ← hes]; exact (targetGuard_eq_true cfg).mp hgt) hne
    intro hcontra
    rcases quickModelInit_error_inv cfg env _ cs hcontra with
      ⟨h1, _, _⟩ | ⟨c1, _, h2, _⟩ | ⟨tid, c1, c2, _, _, h3, _⟩
    · rw [hg] at h1
      exact absurd h1 (by decide)
    · exact resolveTarget_err_ne_mustSpecify cfg env _ c1 h2 rfl
    · exact absurd (resolveTemplates_err_eq cfg env tid _ c2 h3) (by decide)

/-- C1 witness: with both a target id and an entry name supplied, the
constructor raises the mutual-exclusion configuration error. -/
theorem C1_target_validation_witness :
    quickModelInit cfgBoth envTriv = .error .mustSpecifyTarget (initCalls envTriv) :=
  (C1_target_validation cfgBoth envTriv (by decide) (by decide)).1 (by decide)

/-- C2: with a numeric threshold supplied, the selection operation prints no
histogram, consumes no prompts, and returns exactly the identifiers of the
report rows whose identity strictly exceeds the threshold, in row order; a
row equal to the threshold is excluded; on the report
[(T1, 95), (T2, 40), (T3, 10)] with threshold 50 it returns [T1]. -/
theorem C2_selection_strict_threshold (report : List (String × Rat)) (c : Rat)
    (rs : List (Rat × String)) :
    selectOp report (some c) rs = ⟨[], 0, some (selectTemplatesSpec report c)⟩
    ∧ (∀ t, selectTemplates [(t, c)] c = [])
    ∧ selectTemplates [("T1", (95 : Rat)), ("T2", 40), ("T3", 10)] 50 = ["T1"] := by
  refine ⟨?_, ?_, ?_⟩
  · show SelectResult.mk [] 0 (some (selectTemplates report c)) = _
    rw [selectTemplates_eq_spec]
  · intro t
    simp [selectTemplates, List.filter_cons]
  · decide

theorem getLast_append_one {α : Type} (l : List α) (a : α) :
    (l ++ [a]).getLast? = some a := by
  rw [List.getLast?_append_cons]
  rfl

theorem not_mem_of_not_modeling {cs : List Call}
    (hcs : ∀ c ∈ cs, isModelingCall c = false) {c : Call}
    (hc : isModelingCall c = true) : c ∉ cs := by
  intro hmem
  rw [hcs c hmem] at hc
  exact Bool.false_ne_true hc

/-! ### More concrete inputs used by witnesses -/

def cfgEmptySel : Config :=
  { targetid := some "T", model_seqid_cutoff := some 50 }

def envEmptySel : Env :=
  ⟨true, [], true, ["X"], [], [("X", 10)], []⟩

def cfgRun : Config :=
  { targetid := some "T", templateids := some ["A", "B"],
    package_for_fah := true }

def envRun : Env :=
  ⟨true, [], true, ["A", "B"], [], [], []⟩

def callsRun : List Call :=
  [Call.modelTemplateLoops ["A", "B"],
   Call.alignTargetsAndTemplates "T" (some ["A", "B"]),
   Call.buildModels "T" ["A", "B"],
   Call.clusterModels "T",
   Call.refineImplicitMd "T" ["A", "B"] 100,
   Call.solvateModels "T" ["A", "B"],
   Call.determineNwaters "T" ["A", "B"],
   Call.refineExplicitMd "T" ["A", "B"] 100,
   Call.packageForFah "T" 1]

/-- C3: a run that reaches template resolution and resolves an empty template
set ends as a warning (not a raised error), and its whole call trace contains
no modeling/refinement-sequence call (no loop modeling, no
template-restricted alignment, no building, clustering, refinement,
solvation, water counting or packaging); the target-only alignment performed
during resolution is not part of the modeling sequence. -/
theorem C3_empty_resolution_warns (cfg : Config) (env : Env) (tid : String)
    (c1 c2 : List Call)
    (hg : targetGuard cfg = false)
    (h1 : resolveTarget cfg env = .ok tid c1)
    (h2 : resolveTemplates cfg env tid = .ok [] c2) :
    quickModelInit cfg env = .warned (initCalls env ++ c1 ++ c2)
    ∧ ∀ c ∈ (quickModelInit cfg env).calls, isModelingCall c = false := by
  have heq := quickModelInit_ok_eq cfg env tid c1 [] c2 hg h1 h2
  simp only [List.isEmpty_nil, if_true] at heq
  refine ⟨heq, ?_⟩
  rw [heq]
  intro c hc
  simp only [Outcome.calls] at hc
  rcases List.mem_append.mp hc with hc1 | hc2
  · rcases List.mem_append.mp hc1 with hc0 | hc1
    · exact initCalls_not_modeling env c hc0
    · exact resolveTarget_ok_not_modeling cfg env tid c1 h1 c hc1
  · exact resolveTemplates_ok_not_modeling cfg env tid [] c2 h2 c hc2

/-- C3 witness: target id given, fallback path, a report whose only row (10%)
does not exceed the cutoff 50: the run warns after the resolution-phase
alignment and performs no modeling call. -/
theorem C3_empty_resolution_warns_witness :
    quickModelInit cfgEmptySel envEmptySel =
      .warned [Call.alignTargetsAndTemplates "T" none] := by
  exact (C3_empty_resolution_warns cfgEmptySel envEmptySel "T" []
    [Call.alignTargetsAndTemplates "T" none] (by decide) (by decide) (by decide)).1

/-- C4: every run that reaches the modeling/refinement sequence makes the
external calls in exactly this order as the final segment of its trace:
loop modeling (only when the loop-modeling flag is set), alignment, model
building, clustering, implicit-solvent refinement, solvation, solvent-count
determination, explicit-solvent refinement, and packaging (only when
requested); everything before that segment is a non-modeling
(initialization/resolution) call, so disabling loop modeling omits only the
loop-modeling call. -/
theorem C4_modeling_sequence (cfg : Config) (env : Env) (tid : String)
    (tids : List String) (cs : List Call)
    (h : quickModelInit cfg env = .completed tid tids cs) :
    ∃ pre, cs = pre ++
        ((if cfg.loopmodel then [Call.modelTemplateLoops tids] else []) ++
         [Call.alignTargetsAndTemplates tid (some tids),
          Call.buildModels tid tids,
          Call.clusterModels tid,
          Call.refineImplicitMd tid tids cfg.sim_length,
          Call.solvateModels tid tids,
          Call.determineNwaters tid tids,
          Call.refineExplicitMd tid tids cfg.sim_length] ++
         (if cfg.package_for_fah then
            [Call.packageForFah tid (pyNClones cfg.nfahclones)] else []))
      ∧ ∀ c ∈ pre, isModelingCall c = false := by
  obtain ⟨c1, c2, hg, h1, h2, hne, hcs⟩ :=
    quickModelInit_completed_inv cfg env tid tids cs h
  refine ⟨initCalls env ++ c1 ++ c2, ?_, ?_⟩
  · rw [hcs]
    rfl
  · intro c hc
    rcases List.mem_append.mp hc with hc1 | hc2
    · rcases List.mem_append.mp hc1 with hc0 | hc1
      · exact initCalls_not_modeling env c hc0
      · exact resolveTarget_ok_not_modeling cfg env tid c1 h1 c hc1
    · exact resolveTemplates_ok_not_modeling cfg env tid tids c2 h2 c hc2

/-- C4 witness: a run with explicit templates, loop modeling on and packaging
on completes with exactly the nine-call modeling sequence. -/
theorem C4_modeling_sequence_witness :
    ∃ pre, callsRun = pre ++
        ((if cfgRun.loopmodel then [Call.modelTemplateLoops ["A", "B"]] else []) ++
         [Call.alignTargetsAndTemplates "T" (some ["A", "B"]),
          Call.buildModels "T" ["A", "B"],
          Call.clusterModels "T",
          Call.refineImplicitMd "T" ["A", "B"] cfgRun.sim_length,
          Call.solvateModels "T" ["A", "B"],
          Call.determineNwaters "T" ["A", "B"],
          Call.refineExplicitMd "T" ["A", "B"] cfgRun.sim_length] ++
         (if cfgRun.package_for_fah then
            [Call.packageForFah "T" (pyNClones cfgRun.nfahclones)] else []))
      ∧ ∀ c ∈ pre, isModelingCall c = false := by
  exact C4_modeling_sequence cfgRun envRun "T" ["A", "B"] callsRun (by decide)

def cfgDiscover : Config :=
  { target_uniprot_entry_name := some "ENT", uniprot_domain_regex := some "RGX" }

def envDiscover : Env :=
  ⟨true, ["TG1", "TG2"], false, [], [], [], []⟩

/-- C5: with no (truthy) target identifier, construction raises the
configuration error of line 58 when the domain-matching pattern is missing;
otherwise target discovery runs with query `'mnemonic:<entry name>'` and the
pattern, and the resolved target identifier is the first discovered
target's id. -/
theorem C5_target_discovery (cfg : Config) (env : Env)
    (hno : truthyS cfg.targetid = false)
    (hent : truthyS cfg.target_uniprot_entry_name = true) :
    (truthyS cfg.uniprot_domain_regex = false →
      resolveTarget cfg env = .err .missingRegex [] ∧
      quickModelInit cfg env = .error .missingRegex (initCalls env))
    ∧ (∀ t rest, truthyS cfg.uniprot_domain_regex = true →
        env.discoveredTargets = t :: rest →
        resolveTarget cfg env = .ok t
          [Call.gatherTargetsFromUniprot
            ("mnemonic:" ++ cfg.target_uniprot_entry_name.getD "")
            (cfg.uniprot_domain_regex.getD "")]) := by
  have hg : targetGuard cfg = false := by
    unfold targetGuard
    rw [hno, hent]
    rfl
  constructor
  · intro hreg
    have hrt : resolveTarget cfg env = .err .missingRegex [] := by
      unfold resolveTarget
      rw [hno, hent, hreg]
      rfl
    refine ⟨hrt, ?_⟩
    unfold quickModelInit
    simp only [hg, Bool.false_eq_true, if_false, hrt, List.append_nil]
  · intro t rest hreg hdisc
    unfold resolveTarget
    rw [hno, hent, hreg, hdisc]
    rfl

/-- C5 witness: entry name `ENT`, pattern `RGX`, discovery returning
`[TG1, TG2]`: the resolved target id is `TG1`. -/
theorem C5_target_discovery_witness :
    resolveTarget cfgDiscover envDiscover =
      .ok "TG1" [Call.gatherTargetsFromUniprot "mnemonic:ENT" "RGX"] := by
  exact (C5_target_discovery cfgDiscover envDiscover (by decide) (by decide)).2
    "TG1" ["TG2"] (by decide) (by decide)

def cfgExplicitNoTempl : Config :=
  { targetid := some "T", templateids := some ["A"] }

/-- C6: with (truthy) explicit template identifiers, template resolution
raises the `'No existing templates found.'` configuration error when no
non-empty existing-templates report exists (and the whole construction fails
with it); when such a report exists, the supplied identifiers are adopted
as-is and the resolution phase makes no discovery, alignment or filtering
call at all. -/
theorem C6_explicit_templateids (cfg : Config) (env : Env) (tid : String)
    (h : truthyL cfg.templateids = true) :
    (existingTemplates env = false →
      resolveTemplates cfg env tid = .err .noExistingTemplates [] ∧
      ∀ c1, targetGuard cfg = false → resolveTarget cfg env = .ok tid c1 →
        quickModelInit cfg env =
          .error .noExistingTemplates (initCalls env ++ c1 ++ []))
    ∧ (existingTemplates env = true →
      resolveTemplates cfg env tid = .ok (cfg.templateids.getD []) []) := by
  constructor
  · intro hex
    have hres : resolveTemplates cfg env tid = .err .noExistingTemplates [] := by
      unfold resolveTemplates
      rw [h, hex]
      rfl
    refine ⟨hres, ?_⟩
    intro c1 hg h1
    unfold quickModelInit
    simp only [hg, Bool.false_eq_true, if_false, h1, hres]
  · intro hex
    unfold resolveTemplates
    rw [h, hex]
    rfl

/-- C6 witness: explicit template ids with no existing-templates report:
construction fails with the configuration error. -/
theorem C6_explicit_templateids_witness :
    quickModelInit cfgExplicitNoTempl envTriv = .error .noExistingTemplates [] := by
  exact ((C6_explicit_templateids cfgExplicitNoTempl envTriv "T" (by decide)).1
    (by decide)).2 [] (by decide) (by decide)

def cfgPdb : Config :=
  { targetid := some "T", pdbids := some ["1ABC"] }

/-- C7: template resolution takes exactly one of the four paths, selected by
Python truthiness of the optional inputs in priority order: truthy explicit
template ids take the explicit path regardless of the other inputs; otherwise
truthy structure-source (PDB) ids take the gather-from-PDB path; otherwise a
truthy template-discovery query takes the gather-from-query path (gather,
target alignment, threshold selection); otherwise the fallback path requires
existing templates and then aligns and selects. -/
theorem C7_resolution_priority (cfg : Config) (env : Env) (tid : String) :
    (truthyL cfg.templateids = true →
      resolveTemplates cfg env tid =
        (if existingTemplates env then .ok (cfg.templateids.getD []) []
         else .err .noExistingTemplates []))
    ∧ (truthyL cfg.templateids = false → truthyL cfg.pdbids = true →
      resolveTemplates cfg env tid =
        .ok env.templatesAfterPdbGather
          [Call.gatherTemplatesFromPdb (cfg.pdbids.getD []) cfg.uniprot_domain_regex
            cfg.chainids cfg.structure_dirs])
    ∧ (truthyL cfg.templateids = false → truthyL cfg.pdbids = false →
        truthyS cfg.template_uniprot_query = true →
      resolveTemplates cfg env tid =
        (match (selectOp env.seqidReport cfg.model_seqid_cutoff
            env.promptResponses).result with
         | some tids => .ok tids
            [Call.gatherTemplatesFromUniprot (cfg.template_uniprot_query.getD "")
               cfg.uniprot_domain_regex cfg.structure_dirs,
             Call.alignTargetsAndTemplates tid none]
         | none => .blocked
            [Call.gatherTemplatesFromUniprot (cfg.template_uniprot_query.getD "")
               cfg.uniprot_domain_regex cfg.structure_dirs,
             Call.alignTargetsAndTemplates tid none]))
    ∧ (truthyL cfg.templateids = false → truthyL cfg.pdbids = false →
        truthyS cfg.template_uniprot_query = false →
      resolveTemplates cfg env tid =
        (if existingTemplates env then
          (match (selectOp env.seqidReport cfg.model_seqid_cutoff
              env.promptResponses).result with
           | some tids => .ok tids [Call.alignTargetsAndTemplates tid none]
           | none => .blocked [Call.alignTargetsAndTemplates tid none])
         else .err .noExistingTemplates [])) := by
  refine ⟨?_, ?_, ?_, ?_⟩
  · intro h1
    unfold resolveTemplates
    rw [h1]
    cases existingTemplates env <;> rfl
  · intro h1 h2
    unfold resolveTemplates
    rw [h1, h2]
    rfl
  · intro h1 h2 h3
    unfold resolveTemplates
    rw [h1, h2, h3]
    cases (selectOp env.seqidReport cfg.model_seqid_cutoff env.promptResponses).result <;>
      rfl
  · intro h1 h2 h3
    unfold resolveTemplates
    rw [h1, h2, h3]
    cases existingTemplates env
    · rfl
    · cases (selectOp env.seqidReport cfg.model_seqid_cutoff env.promptResponses).result <;>
        rfl

/-- C7 witness: PDB ids supplied and explicit template ids absent: the
gather-from-PDB path is taken and adopts the post-gather resolved-sequence
report. -/
theorem C7_resolution_priority_witness :
    resolveTemplates cfgPdb envTriv "T" =
      .ok [] [Call.gatherTemplatesFromPdb ["1ABC"] none none none] := by
  exact (C7_resolution_priority cfgPdb envTriv "T").2.1 (by decide) (by decide)

theorem packageForFah_not_mem_modelCalls (tid : String) (tids : List String)
    (lm : Bool) (nf : Option Int) (sl : Rat) (t : String) (n : Int) :
    Call.packageForFah t n ∉ modelCalls tid tids lm false nf sl := by
  unfold modelCalls
  cases lm <;> simp

/-- C8: when packaging is requested and no clone count was supplied, the
packaging call is the last call of every completed run and receives a clone
count of 1; when packaging is not requested, no packaging call ever occurs
in the run's trace. -/
theorem C8_packaging_default (cfg : Config) (env : Env) :
    (cfg.package_for_fah = true → cfg.nfahclones = none →
      ∀ tid tids cs, quickModelInit cfg env = .completed tid tids cs →
        cs.getLast? = some (Call.packageForFah tid 1))
    ∧ (cfg.package_for_fah = false →
      ∀ t n, Call.packageForFah t n ∉ (quickModelInit cfg env).calls) := by
  constructor
  · intro hpkg hnone tid tids cs h
    obtain ⟨c1, c2, hg, h1, h2, hne, hcs⟩ :=
      quickModelInit_completed_inv cfg env tid tids cs h
    rw [hcs]
    unfold modelCalls
    rw [hpkg, hnone]
    simp only [if_true, pyNClones]
    rw [← List.append_assoc, ← List.append_assoc]
    exact getLast_append_one _ _
  · intro hpkg t n hmem
    have hmod : isModelingCall (Call.packageForFah t n) = true := rfl
    cases ho : quickModelInit cfg env with
    | error e cs =>
      rw [ho] at hmem
      rcases quickModelInit_error_inv cfg env e cs ho with
        ⟨_, _, hcs⟩ | ⟨c1, _, h1, hcs⟩ | ⟨tid, c1, c2, _, h1, h2, hcs⟩
      · rw [hcs] at hmem
        exact not_mem_of_not_modeling (initCalls_not_modeling env) hmod hmem
      · rw [hcs] at hmem
        rcases List.mem_append.mp hmem with hc0 | hc1
        · exact not_mem_of_not_modeling (initCalls_not_modeling env) hmod hc0
        · have : ∀ c ∈ c1, isModelingCall c = false := by
            intro c hc
            unfold resolveTarget at h1
            split at h1
            · simp at h1
            · split at h1
              · injection h1 with hh1 hh2
                subst hh2
                simp at hc
              · split at h1
                · injection h1 with hh1 hh2
                  subst hh2
                  simp_all [isModelingCall]
                · simp at h1
          exact not_mem_of_not_modeling this hmod hc1
      · rw [hcs] at hmem
        rcases List.mem_append.mp hmem with hc01 | hc2
        · rcases List.mem_append.mp hc01 with hc0 | hc1
          · exact not_mem_of_not_modeling (initCalls_not_modeling env) hmod hc0
          · exact not_mem_of_not_modeling
              (resolveTarget_ok_not_modeling cfg env tid c1 h1) hmod hc1
        · have : ∀ c ∈ c2, isModelingCall c = false := by
            intro c hc
            unfold resolveTemplates at h2
            split at h2
            · split at h2
              · injection h2 with hh1 hh2
                subst hh2
                simp at hc
              · simp at h2
            · split at h2
              · simp at h2
              · split at h2
                · split at h2 <;> simp at h2
                · split at h2
                  · injection h2 with hh1 hh2
                    subst hh2
                    simp at hc
                  · split at h2 <;> simp at h2
          exact not_mem_of_not_modeling this hmod hc2
    | warned cs =>
      rw [ho] at hmem
      obtain ⟨tid, c1, c2, hg, h1, h2, hcs⟩ := quickModelInit_warned_inv cfg env cs ho
      rw [hcs] at hmem
      rcases List.mem_append.mp hmem with hc01 | hc2
      · rcases List.mem_append.mp hc01 with hc0 | hc1
        · exact not_mem_of_not_modeling (initCalls_not_modeling env) hmod hc0
        · exact not_mem_of_not_modeling
            (resolveTarget_ok_not_modeling cfg env tid c1 h1) hmod hc1
      · exact not_mem_of_not_modeling
          (resolveTemplates_ok_not_modeling cfg env tid [] c2 h2) hmod hc2
    | blocked cs =>
      rw [ho] at hmem
      obtain ⟨tid, c1, c2, hg, h1, h2, hcs⟩ := quickModelInit_blocked_inv cfg env cs ho
      rw [hcs] at hmem
      rcases List.mem_append.mp hmem with hc01 | hc2
      · rcases List.mem_append.mp hc01 with hc0 | hc1
        · exact not_mem_of_not_modeling (initCalls_not_modeling env) hmod hc0
        · exact not_mem_of_not_modeling
            (resolveTarget_ok_not_modeling cfg env tid c1 h1) hmod hc1
      · have : ∀ c ∈ c2, isModelingCall c = false := by
          intro c hc
          unfold resolveTemplates at h2
          split at h2
          · split at h2 <;> simp at h2
          · split at h2
            · simp at h2
            · split at h2
              · split at h2
                · simp at h2
                · injection h2 with hh2
                  subst hh2
                  simp_all [isModelingCall]
              · split at h2
                · simp at h2
                · split at h2
                  · simp at h2
                  · injection h2 with hh2
                    subst hh2
                    simp_all [isModelingCall]
        exact not_mem_of_not_modeling this hmod hc2
    | completed tid tids cs =>
      rw [ho] at hmem
      obtain ⟨c1, c2, hg, h1, h2, hne, hcs⟩ :=
        quickModelInit_completed_inv cfg env tid tids cs ho
      rw [hcs] at hmem
      rcases List.mem_append.mp hmem with hc012 | hcm
      · rcases List.mem_append.mp hc012 with hc01 | hc2
        · rcases List.mem_append.mp hc01 with hc0 | hc1
          · exact not_mem_of_not_modeling (initCalls_not_modeling env) hmod hc0
          · exact not_mem_of_not_modeling
              (resolveTarget_ok_not_modeling cfg env tid c1 h1) hmod hc1
        · exact not_mem_of_not_modeling
            (resolveTemplates_ok_not_modeling cfg env tid tids c2 h2) hmod hc2
      · rw [hpkg] at hcm
        exact packageForFah_not_mem_modelCalls tid tids cfg.loopmodel
          cfg.nfahclones cfg.sim_length t n hcm

/-- C8 witness: the completed run with packaging requested and no clone count
ends with a packaging call for 1 clone. -/
theorem C8_packaging_default_witness :
    callsRun.getLast? = some (Call.packageForFah "T" 1) := by
  exact (C8_packaging_default cfgRun envRun).1 rfl rfl "T" ["A", "B"] callsRun
    (by decide)

theorem promptLoop_append_yes (pre : List (Rat × String)) (c : Rat) (ans : String)
    (rest : List (Rat × String)) (hpre : ∀ p ∈ pre, isYes p.2 = false)
    (hyes : isYes ans = true) :
    promptLoop (pre ++ (c, ans) :: rest) = some (c, pre.length + 1) := by
  induction pre with
  | nil =>
    simp only [List.nil_append, promptLoop, hyes, if_true, List.length_nil]
  | cons p ps ih =>
    obtain ⟨c0, a0⟩ := p
    have h0 : isYes a0 = false := hpre (c0, a0) (by simp)
    have hps : ∀ q ∈ ps, isYes q.2 = false := fun q hq => hpre q (by simp [hq])
    rw [List.cons_append]
    simp only [promptLoop, h0, Bool.false_eq_true, if_false, ih hps, List.length_cons]

/-- C9: with no numeric threshold supplied, the selection operation prints one
count line per cutoff 0, 10, ..., 100 (each counting templates strictly above
that cutoff), then prompts for a (threshold, confirmation) pair once per round
until the first affirmative confirmation, and filters with the threshold
entered in that confirmed round — the last threshold entered. -/
theorem C9_interactive_selection (report : List (String × Rat))
    (pre : List (Rat × String)) (c : Rat) (ans : String)
    (rest : List (Rat × String))
    (hpre : ∀ p ∈ pre, isYes p.2 = false) (hyes : isYes ans = true) :
    selectOp report none (pre ++ (c, ans) :: rest) =
      ⟨histogramLines report, pre.length + 1, some (selectTemplates report c)⟩
    ∧ (histogramLines report).length = 11
    ∧ ∀ k, k < 11 → (histogramLines report)[k]? =
        some (10 * k, (report.filter (fun p => p.2 > ((10 * k : Nat) : Rat))).length) := by
  refine ⟨?_, ?_, ?_⟩
  · unfold selectOp
    rw [promptLoop_append_yes pre c ans rest hpre hyes]
  · simp [histogramLines]
  · intro k hk
    unfold histogramLines
    rw [List.getElem?_map, List.getElem?_range hk]
    rfl

/-- C9 witness: report [(T1, 95), (T2, 40), (T3, 10)], no threshold supplied;
the first round (30, n) is declined, the second (50, y) confirmed: two prompt
rounds, the histogram printed, and the selection filtered at 50, giving [T1]. -/
theorem C9_interactive_selection_witness :
    selectOp [("T1", (95 : Rat)), ("T2", 40), ("T3", 10)] none
        [((30 : Rat), "n"), ((50 : Rat), "y")] =
      ⟨histogramLines [("T1", (95 : Rat)), ("T2", 40), ("T3", 10)], 2, some ["T1"]⟩ := by
  exact (C9_interactive_selection [("T1", (95 : Rat)), ("T2", 40), ("T3", 10)]
    [((30 : Rat), "n")] 50 "y" [] (by decide) (by decide)).1

/-- C10: an empty explicit template-identifier list is falsy in Python, so it
behaves exactly as if no template identifiers were supplied: the
explicit-identifiers path and its existing-templates check are skipped, and
the whole construction is indistinguishable from the `None` configuration. -/
theorem C10_empty_templateids_falsy (cfg : Config) (env : Env) (tid : String) :
    resolveTemplates { cfg with templateids := some [] } env tid =
      resolveTemplates { cfg with templateids := none } env tid
    ∧ quickModelInit { cfg with templateids := some [] } env =
      quickModelInit { cfg with templateids := none } env := by
  constructor
  · rfl
  · by_cases hg : targetGuard { cfg with templateids := none } = true
    · have hg1 : targetGuard { cfg with templateids := some [] } = true := hg
      rw [quickModelInit_guard_eq _ env hg1, quickModelInit_guard_eq _ env hg]
    · have hg2 : targetGuard { cfg with templateids := none } = false :=
        bool_ne_true _ hg
      have hg1 : targetGuard { cfg with templateids := some [] } = false := hg2
      cases hrt : resolveTarget { cfg with templateids := none } env with
      | err e c1 =>
        have hrt1 : resolveTarget { cfg with templateids := some [] } env =
            .err e c1 := hrt
        rw [quickModelInit_rt_err_eq _ env e c1 hg1 hrt1,
          quickModelInit_rt_err_eq _ env e c1 hg2 hrt]
      | ok t c1 =>
        have hrt1 : resolveTarget { cfg with templateids := some [] } env =
            .ok t c1 := hrt
        cases hres : resolveTemplates { cfg with templateids := none } env t with
        | err e c2 =>
          have hres1 : resolveTemplates { cfg with templateids := some [] } env t =
              .err e c2 := hres
          rw [quickModelInit_templ_err_eq _ env t c1 e c2 hg1 hrt1 hres1,
            quickModelInit_templ_err_eq _ env t c1 e c2 hg2 hrt hres]
        | blocked c2 =>
          have hres1 : resolveTemplates { cfg with templateids := some [] } env t =
              .blocked c2 := hres
          rw [quickModelInit_templ_blocked_eq _ env t c1 c2 hg1 hrt1 hres1,
            quickModelInit_templ_blocked_eq _ env t c1 c2 hg2 hrt hres]
        | ok tids c2 =>
          have hres1 : resolveTemplates { cfg with templateids := some [] } env t =
              .ok tids c2 := hres
          rw [quickModelInit_ok_eq _ env t c1 tids c2 hg1 hrt1 hres1,
            quickModelInit_ok_eq _ env t c1 tids c2 hg2 hrt hres]

end QuickModel
